import Mathlib

/-
  Verification development for the forum feature of the
  air-quality-prediction repository: posts and comments with
  ownership-gated edit/delete, embedded as pure functions over an
  explicit relational store.

  Sources embedded:
  - src/app/api/forum/posts/[id]/route.ts        (PUT, DELETE on a post)
  - src/app/api/forum/posts/[id]/comments/route.ts (POST a comment)
  - src/unnamed/part_001                          (PUT/DELETE comment; GET/POST posts)
  - src/unnamed/part_000                          (client view, handleLikePost)
-/

namespace Forum

/-- An authenticated actor as resolved by requireAuth: its id and role. -/
structure Actor where
  id : Nat
  role : String
deriving DecidableEq, Repr

/-- A row of the users table (owned by the external identity system). -/
structure UserRow where
  id : Nat
  name : String
deriving DecidableEq, Repr

/-- A row of the forum_posts table. -/
structure PostRow where
  id : Nat
  user_id : Nat
  title : String
  content : String
  created_at : Nat
  updated_at : Option Nat
deriving DecidableEq, Repr

/-- A row of the comments table. -/
structure CommentRow where
  id : Nat
  post_id : Nat
  user_id : Nat
  content : String
  created_at : Nat
  updated_at : Option Nat
deriving DecidableEq, Repr

/-- The relational store: users, forum_posts and comments tables,
    each a list of rows in insertion order. -/
structure Store where
  users : List UserRow
  posts : List PostRow
  comments : List CommentRow
deriving DecidableEq, Repr

/-- JavaScript truthiness of a string field extracted from a JSON body:
    the handler guard `!x` rejects a field that is absent or the empty
    string. `present x = true` exactly when the guard passes. -/
def present : Option String → Bool
  | none => false
  | some s => s ≠ ""

/-- Embedded author object as built by json_build_object in the list query. -/
structure Author where
  id : Nat
  name : String
deriving DecidableEq, Repr

/-- One element of the comments aggregate in the list-posts query. -/
structure CommentView where
  id : Nat
  content : String
  created_at : Nat
  user_id : Nat
  author : Option Author
deriving DecidableEq, Repr

/-- One row of the list-posts response: the post with its embedded
    author and aggregated comments. -/
structure PostView where
  id : Nat
  title : String
  content : String
  created_at : Nat
  user_id : Nat
  author : Author
  comments : List CommentView
deriving DecidableEq, Repr

/-- Response bodies produced by the handlers. -/
inductive Body where
  | err (msg : String)
  | postRec (id : Nat) (title content : String) (created_at : Nat) (updated_at : Option Nat)
  | commentRec (id : Nat) (content : String) (created_at : Nat) (updated_at : Option Nat)
  | postCreated (id : Nat) (title content : String) (created_at : Nat)
  | commentCreated (id : Nat) (content : String) (created_at : Nat)
  | success
  | postList (rows : List PostView)
deriving DecidableEq, Repr

/-- Result of one handler call: HTTP status, resulting store, response body. -/
structure HandlerResult where
  status : Nat
  store : Store
  body : Body
deriving DecidableEq, Repr

/-- SELECT user_id FROM forum_posts WHERE id = $1, first row. -/
def findPost (s : Store) (id : Nat) : Option PostRow :=
  s.posts.find? (fun p => p.id == id)

/-- SELECT user_id FROM comments WHERE id = $1, first row. -/
def findComment (s : Store) (id : Nat) : Option CommentRow :=
  s.comments.find? (fun c => c.id == id)

/-- PUT /api/forum/posts/[id] (src/app/api/forum/posts/[id]/route.ts).
    Validates title and content, then checks existence, then ownership
    (owner or admin), then runs the UPDATE returning the updated record. -/
def putPost (s : Store) (actor : Actor) (id : Nat)
    (title content : Option String) (now : Nat) : HandlerResult :=
  if !(present title && present content) then
    ⟨400, s, .err "Missing title or content"⟩
  else
    match findPost s id with
    | none => ⟨404, s, .err "Post not found"⟩
    | some row =>
      if row.user_id ≠ actor.id ∧ actor.role ≠ "admin" then
        ⟨403, s, .err "Forbidden"⟩
      else
        let t := title.getD ""
        let c := content.getD ""
        let posts' := s.posts.map fun p =>
          if p.id == id then { p with title := t, content := c, updated_at := some now } else p
        ⟨200, { s with posts := posts' },
          .postRec row.id t c row.created_at (some now)⟩

/-- DELETE /api/forum/posts/[id] (src/app/api/forum/posts/[id]/route.ts).
    Checks existence, then ownership, then deletes all comments of the
    post followed by the post row itself. -/
def deletePost (s : Store) (actor : Actor) (id : Nat) : HandlerResult :=
  match findPost s id with
  | none => ⟨404, s, .err "Post not found"⟩
  | some row =>
    if row.user_id ≠ actor.id ∧ actor.role ≠ "admin" then
      ⟨403, s, .err "Forbidden"⟩
    else
      let afterComments := { s with comments := s.comments.filter (fun c => !(c.post_id == id)) }
      let afterPost := { afterComments with posts := afterComments.posts.filter (fun p => !(p.id == id)) }
      ⟨200, afterPost, .success⟩

/-- POST /api/forum/posts (src/unnamed/part_001). Validates title and
    content, then inserts a row owned by the actor with server-assigned
    created_at, returning the created record with status 201. -/
def createPost (s : Store) (actor : Actor) (title content : Option String)
    (now newId : Nat) : HandlerResult :=
  if !(present title && present content) then
    ⟨400, s, .err "Missing title or content"⟩
  else
    let t := title.getD ""
    let c := content.getD ""
    let row : PostRow := ⟨newId, actor.id, t, c, now, none⟩
    ⟨201, { s with posts := s.posts ++ [row] }, .postCreated newId t c now⟩

/-- POST /api/forum/posts/[id]/comments
    (src/app/api/forum/posts/[id]/comments/route.ts). Validates content,
    then runs the INSERT. Modelled from the spec: the foreign key
    comments.post_id referencing forum_posts.id lives in the database
    schema, which is not among the source files; per the spec a missing
    post makes the INSERT fail with a foreign-key violation that the
    catch block surfaces as status 500 with nothing persisted. -/
def createComment (s : Store) (actor : Actor) (postId : Nat)
    (content : Option String) (now newId : Nat) : HandlerResult :=
  if !(present content) then
    ⟨400, s, .err "Missing content"⟩
  else if s.posts.any (fun p => p.id == postId) then
    let c := content.getD ""
    let row : CommentRow := ⟨newId, postId, actor.id, c, now, none⟩
    ⟨201, { s with comments := s.comments ++ [row] }, .commentCreated newId c now⟩
  else
    ⟨500, s, .err "Failed to create comment"⟩

/-- PUT /api/forum/comments/[id] (src/unnamed/part_001). Validates
    content, then checks existence, then ownership, then runs the UPDATE
    returning the updated record. -/
def putComment (s : Store) (actor : Actor) (id : Nat)
    (content : Option String) (now : Nat) : HandlerResult :=
  if !(present content) then
    ⟨400, s, .err "Missing content"⟩
  else
    match findComment s id with
    | none => ⟨404, s, .err "Comment not found"⟩
    | some row =>
      if row.user_id ≠ actor.id ∧ actor.role ≠ "admin" then
        ⟨403, s, .err "Forbidden"⟩
      else
        let c := content.getD ""
        let comments' := s.comments.map fun x =>
          if x.id == id then { x with content := c, updated_at := some now } else x
        ⟨200, { s with comments := comments' },
          .commentRec row.id c row.created_at (some now)⟩

/-- DELETE /api/forum/comments/[id] (src/unnamed/part_001). Checks
    existence, then ownership, then deletes the comment row. -/
def deleteComment (s : Store) (actor : Actor) (id : Nat) : HandlerResult :=
  match findComment s id with
  | none => ⟨404, s, .err "Comment not found"⟩
  | some row =>
    if row.user_id ≠ actor.id ∧ actor.role ≠ "admin" then
      ⟨403, s, .err "Forbidden"⟩
    else
      ⟨200, { s with comments := s.comments.filter (fun c => !(c.id == id)) }, .success⟩

/-- SELECT the first user with the given id (JOIN users ON u.id = p.user_id). -/
def findUser (us : List UserRow) (uid : Nat) : Option UserRow :=
  us.find? (fun u => u.id == uid)

/-- The aggregated comments of one post in the list-posts query:
    LEFT JOIN comments c ON c.post_id = p.id, each with its author from
    LEFT JOIN users cu ON cu.id = c.user_id; the COALESCE/FILTER pair
    turns a post with no comment rows into an empty array. -/
def commentViews (s : Store) (pid : Nat) : List CommentView :=
  (s.comments.filter (fun c => c.post_id == pid)).map fun c =>
    { id := c.id, content := c.content, created_at := c.created_at, user_id := c.user_id,
      author := (findUser s.users c.user_id).map fun u => ⟨u.id, u.name⟩ }

/-- Insert one post into a list kept in descending created_at order. -/
def insertByDesc (p : PostRow) : List PostRow → List PostRow
  | [] => [p]
  | q :: qs => if q.created_at ≤ p.created_at then p :: q :: qs else q :: insertByDesc p qs

/-- ORDER BY p.created_at DESC over the forum_posts rows. -/
def sortByCreatedDesc : List PostRow → List PostRow
  | [] => []
  | p :: ps => insertByDesc p (sortByCreatedDesc ps)

/-- The rows of GET /api/forum/posts (src/unnamed/part_001): posts
    ordered by created_at descending, each inner-joined with its author
    and carrying its aggregated comments. The inner JOIN drops a post
    whose user_id matches no user row. -/
def getPosts (s : Store) : List PostView :=
  (sortByCreatedDesc s.posts).filterMap fun p =>
    (findUser s.users p.user_id).map fun u =>
      { id := p.id, title := p.title, content := p.content,
        created_at := p.created_at, user_id := p.user_id,
        author := ⟨u.id, u.name⟩, comments := commentViews s p.id }

/-- GET /api/forum/posts as a handler: no authentication wrapper, reads
    the store, mutates nothing. -/
def getPostsHandler (s : Store) : HandlerResult :=
  ⟨200, s, .postList (getPosts s)⟩

/-- A post as held in the client view state (interface ForumPost in
    src/unnamed/part_000). -/
structure ClientPost where
  id : Nat
  title : String
  content : String
  created_at : Nat
  author : Option Author
  comments : List CommentView
  user_id : Option Nat
deriving DecidableEq, Repr

/-- handleLikePost from src/unnamed/part_000: maps the post list,
    replacing the matching post by a spread copy of itself; it performs
    no fetch and changes no field. -/
def handleLikePost (posts : List ClientPost) (postId : Nat) : List ClientPost :=
  posts.map fun post =>
    if post.id == postId then
      { id := post.id, title := post.title, content := post.content,
        created_at := post.created_at, author := post.author,
        comments := post.comments, user_id := post.user_id }
    else post

/-- Example users for concrete evaluations. -/
def exUsers : List UserRow := [⟨1, "An"⟩, ⟨2, "Binh"⟩, ⟨3, "Chi"⟩]

/-- Example post owned by user 1. -/
def exPost1 : PostRow := ⟨1, 1, "Rain", "Heavy rain today", 10, none⟩

/-- Example post owned by user 2. -/
def exPost2 : PostRow := ⟨2, 2, "Sun", "Clear sky", 20, none⟩

/-- Example comment by user 2 on post 1. -/
def exComment1 : CommentRow := ⟨1, 1, 2, "nice", 15, none⟩

/-- Example store holding the rows above. -/
def exStore : Store := ⟨exUsers, [exPost1, exPost2], [exComment1]⟩

/-- The owner of exPost1. -/
def exOwner : Actor := ⟨1, "user"⟩

/-- An actor who owns neither exPost1 nor exComment1 as a post. -/
def exOther : Actor := ⟨2, "user"⟩

/-- An admin actor owning nothing. -/
def exAdmin : Actor := ⟨9, "admin"⟩

/-- C9: for every client post-list state and every postId, the view's
    like handler returns a state exactly equal to the one it was given;
    the handler is a pure state update issuing no server request (the
    source performs no fetch in handleLikePost). -/
theorem forum_c9_like_is_noop (posts : List ClientPost) (postId : Nat) :
    handleLikePost posts postId = posts := by
  unfold handleLikePost
  induction posts with
  | nil => rfl
  | cons p ps ih =>
    simp only [List.map_cons, ih]
    split <;> rfl

/-- C4: an authenticated create-post request whose title or content is
    missing or empty yields 400 with the store unchanged; when both
    fields are non-empty the insert runs, appending exactly one row
    owned by the actor, with status 201. -/
theorem forum_c4_create_post_validation (s : Store) (a : Actor)
    (t c : Option String) (now newId : Nat) :
    ((present t && present c) = false →
       (createPost s a t c now newId).status = 400 ∧
       (createPost s a t c now newId).store = s)
    ∧ ((present t && present c) = true →
       (createPost s a t c now newId).status = 201 ∧
       (createPost s a t c now newId).store.posts =
         s.posts ++ [⟨newId, a.id, t.getD "", c.getD "", now, none⟩] ∧
       (createPost s a t c now newId).store.comments = s.comments ∧
       (createPost s a t c now newId).store.users = s.users) := by
  constructor
  · intro h
    simp [createPost, h]
  · intro h
    simp [createPost, h]

/-- Witness for C4: concrete invalid and valid create-post calls. -/
theorem forum_c4_witness :
    (createPost exStore exOther (some "") (some "x") 5 9).status = 400 ∧
    (createPost exStore exOther (some "a") (some "b") 5 9).status = 201 :=
  ⟨((forum_c4_create_post_validation exStore exOther (some "") (some "x") 5 9).1
      (by decide)).1,
   ((forum_c4_create_post_validation exStore exOther (some "a") (some "b") 5 9).2
      (by decide)).1⟩

/-- C7: creating a comment with non-empty content on a post id that
    matches no post fails the foreign key, surfaced as status 500, and
    persists nothing. -/
theorem forum_c7_comment_fk_violation (s : Store) (a : Actor) (postId : Nat)
    (co : Option String) (now newId : Nat)
    (hco : present co = true)
    (hmiss : ∀ p ∈ s.posts, p.id ≠ postId) :
    (createComment s a postId co now newId).status = 500 ∧
    (createComment s a postId co now newId).store = s := by
  have hany : s.posts.any (fun p => p.id == postId) = false := by
    rw [List.any_eq_false]
    intro p hp
    simpa using hmiss p hp
  constructor <;> simp [createComment, hco, hany]

/-- Witness for C7: commenting on the absent post 999 in the example store. -/
theorem forum_c7_witness :
    (createComment exStore exOwner 999 (some "nice") 30 5).status = 500 ∧
    (createComment exStore exOwner 999 (some "nice") 30 5).store = exStore :=
  forum_c7_comment_fk_violation exStore exOwner 999 (some "nice") 30 5
    (by decide) (by decide)

/-- C10: for both PUT post and PUT comment, body validation runs before
    the existence and ownership checks: an invalid body yields 400 with
    the store unchanged, for every store and actor (in particular when
    the resource is absent or the actor unauthorized), and the response
    does not depend on the store or actor at all. -/
theorem forum_c10_validation_first :
    (∀ (s : Store) (a : Actor) (id : Nat) (t c : Option String) (now : Nat),
       (present t && present c) = false →
       (putPost s a id t c now).status = 400 ∧
       (putPost s a id t c now).store = s ∧
       ∀ (s' : Store) (a' : Actor),
         (putPost s' a' id t c now).status = (putPost s a id t c now).status ∧
         (putPost s' a' id t c now).body = (putPost s a id t c now).body)
    ∧ (∀ (s : Store) (a : Actor) (id : Nat) (c : Option String) (now : Nat),
       present c = false →
       (putComment s a id c now).status = 400 ∧
       (putComment s a id c now).store = s ∧
       ∀ (s' : Store) (a' : Actor),
         (putComment s' a' id c now).status = (putComment s a id c now).status ∧
         (putComment s' a' id c now).body = (putComment s a id c now).body) := by
  constructor
  · intro s a id t c now h
    refine ⟨by simp [putPost, h], by simp [putPost, h], ?_⟩
    intro s' a'
    constructor <;> simp [putPost, h]
  · intro s a id c now h
    refine ⟨by simp [putComment, h], by simp [putComment, h], ?_⟩
    intro s' a'
    constructor <;> simp [putComment, h]

/-- Witness for C10: an empty-title PUT on an absent post id by a
    non-owner still yields 400 with the store untouched. -/
theorem forum_c10_witness :
    (putPost exStore exOther 999 (some "") (some "x") 30).status = 400 ∧
    (putPost exStore exOther 999 (some "") (some "x") 30).store = exStore ∧
    (putComment exStore exOther 999 none 30).status = 400 :=
  ⟨(forum_c10_validation_first.1 exStore exOther 999 (some "") (some "x") 30 (by decide)).1,
   (forum_c10_validation_first.1 exStore exOther 999 (some "") (some "x") 30 (by decide)).2.1,
   (forum_c10_validation_first.2 exStore exOther 999 none 30 (by decide)).1⟩

/-- C2 counterexample: post 1 exists in the example store and actor 2 is
    neither its owner nor an admin, yet a PUT whose title is missing
    returns 400, not 403 — validation runs before the ownership check. -/
theorem forum_c2_counterexample :
    exPost1 ∈ exStore.posts ∧ exPost1.id = 1 ∧
    exOther.id ≠ exPost1.user_id ∧ exOther.role ≠ "admin" ∧
    (putPost exStore exOther 1 none (some "x") 30).status = 400 ∧
    (putPost exStore exOther 1 none (some "x") 30).status ≠ 403 := by
  decide

/-- C2 amended: a non-owner non-admin actor receives 403 on DELETE of an
    existing resource unconditionally, and on PUT for every payload that
    passes validation; a PUT payload with a missing or empty required
    field instead yields 400. -/
theorem forum_c2_forbidden_amended :
    (∀ (s : Store) (a : Actor) (id : Nat) (row : PostRow) (t c : Option String) (now : Nat),
       findPost s id = some row → row.user_id ≠ a.id → a.role ≠ "admin" →
       (present t && present c) = true →
       (putPost s a id t c now).status = 403)
    ∧ (∀ (s : Store) (a : Actor) (id : Nat) (row : PostRow),
       findPost s id = some row → row.user_id ≠ a.id → a.role ≠ "admin" →
       (deletePost s a id).status = 403)
    ∧ (∀ (s : Store) (a : Actor) (id : Nat) (row : CommentRow) (c : Option String) (now : Nat),
       findComment s id = some row → row.user_id ≠ a.id → a.role ≠ "admin" →
       present c = true →
       (putComment s a id c now).status = 403)
    ∧ (∀ (s : Store) (a : Actor) (id : Nat) (row : CommentRow),
       findComment s id = some row → row.user_id ≠ a.id → a.role ≠ "admin" →
       (deleteComment s a id).status = 403)
    ∧ (∀ (s : Store) (a : Actor) (id : Nat) (t c : Option String) (now : Nat),
       (present t && present c) = false →
       (putPost s a id t c now).status = 400)
    ∧ (∀ (s : Store) (a : Actor) (id : Nat) (c : Option String) (now : Nat),
       present c = false →
       (putComment s a id c now).status = 400) := by
  refine ⟨?_, ?_, ?_, ?_, ?_, ?_⟩
  · intro s a id row t c now hf h1 h2 hv
    simp [putPost, hv, hf, h1, h2]
  · intro s a id row hf h1 h2
    simp [deletePost, hf, h1, h2]
  · intro s a id row c now hf h1 h2 hv
    simp [putComment, hv, hf, h1, h2]
  · intro s a id row hf h1 h2
    simp [deleteComment, hf, h1, h2]
  · intro s a id t c now hv
    simp [putPost, hv]
  · intro s a id c now hv
    simp [putComment, hv]

/-- Witness for the amended C2: actor 2 on post 1 in the example store. -/
theorem forum_c2_amended_witness :
    (putPost exStore exOther 1 (some "T") (some "C") 30).status = 403 ∧
    (deletePost exStore exOther 1).status = 403 :=
  ⟨forum_c2_forbidden_amended.1 exStore exOther 1 exPost1 (some "T") (some "C") 30
     (by decide) (by decide) (by decide) (by decide),
   forum_c2_forbidden_amended.2.1 exStore exOther 1 exPost1
     (by decide) (by decide) (by decide)⟩

/-- C1: on every update or delete of an existing resource with a valid
    body, the mutation runs exactly when the actor is the resource owner
    or an admin; otherwise the handler answers 403 and the store is
    unchanged. Covers PUT/DELETE post and PUT/DELETE comment. -/
theorem forum_c1_ownership_gate :
    (∀ (s : Store) (a : Actor) (id : Nat) (row : PostRow) (t c : Option String) (now : Nat),
       (present t && present c) = true → findPost s id = some row →
       ((row.user_id = a.id ∨ a.role = "admin") →
          (putPost s a id t c now).status = 200 ∧
          (putPost s a id t c now).store.posts = s.posts.map (fun p =>
            if p.id == id then { p with title := t.getD "", content := c.getD "",
                                        updated_at := some now } else p))
       ∧ (¬(row.user_id = a.id ∨ a.role = "admin") →
          (putPost s a id t c now).status = 403 ∧ (putPost s a id t c now).store = s))
    ∧ (∀ (s : Store) (a : Actor) (id : Nat) (row : PostRow),
       findPost s id = some row →
       ((row.user_id = a.id ∨ a.role = "admin") →
          (deletePost s a id).status = 200 ∧
          (deletePost s a id).store.posts = s.posts.filter (fun p => !(p.id == id)) ∧
          (deletePost s a id).store.comments = s.comments.filter (fun c => !(c.post_id == id)))
       ∧ (¬(row.user_id = a.id ∨ a.role = "admin") →
          (deletePost s a id).status = 403 ∧ (deletePost s a id).store = s))
    ∧ (∀ (s : Store) (a : Actor) (id : Nat) (row : CommentRow) (c : Option String) (now : Nat),
       present c = true → findComment s id = some row →
       ((row.user_id = a.id ∨ a.role = "admin") →
          (putComment s a id c now).status = 200 ∧
          (putComment s a id c now).store.comments = s.comments.map (fun x =>
            if x.id == id then { x with content := c.getD "", updated_at := some now } else x))
       ∧ (¬(row.user_id = a.id ∨ a.role = "admin") →
          (putComment s a id c now).status = 403 ∧ (putComment s a id c now).store = s))
    ∧ (∀ (s : Store) (a : Actor) (id : Nat) (row : CommentRow),
       findComment s id = some row →
       ((row.user_id = a.id ∨ a.role = "admin") →
          (deleteComment s a id).status = 200 ∧
          (deleteComment s a id).store.comments = s.comments.filter (fun x => !(x.id == id)))
       ∧ (¬(row.user_id = a.id ∨ a.role = "admin") →
          (deleteComment s a id).status = 403 ∧ (deleteComment s a id).store = s)) := by
  refine ⟨?_, ?_, ?_, ?_⟩
  · intro s a id row t c now hv hf
    constructor
    · intro hauth
      have hno : ¬(row.user_id ≠ a.id ∧ a.role ≠ "admin") := by
        rintro ⟨h1, h2⟩
        exact hauth.elim h1 h2
      constructor <;> simp [putPost, hv, hf, hno]
    · intro hauth
      push_neg at hauth
      constructor <;> simp [putPost, hv, hf, hauth.1, hauth.2]
  · intro s a id row hf
    constructor
    · intro hauth
      have hno : ¬(row.user_id ≠ a.id ∧ a.role ≠ "admin") := by
        rintro ⟨h1, h2⟩
        exact hauth.elim h1 h2
      refine ⟨?_, ?_, ?_⟩ <;> simp [deletePost, hf, hno]
    · intro hauth
      push_neg at hauth
      constructor <;> simp [deletePost, hf, hauth.1, hauth.2]
  · intro s a id row c now hv hf
    constructor
    · intro hauth
      have hno : ¬(row.user_id ≠ a.id ∧ a.role ≠ "admin") := by
        rintro ⟨h1, h2⟩
        exact hauth.elim h1 h2
      constructor <;> simp [putComment, hv, hf, hno]
    · intro hauth
      push_neg at hauth
      constructor <;> simp [putComment, hv, hf, hauth.1, hauth.2]
  · intro s a id row hf
    constructor
    · intro hauth
      have hno : ¬(row.user_id ≠ a.id ∧ a.role ≠ "admin") := by
        rintro ⟨h1, h2⟩
        exact hauth.elim h1 h2
      constructor <;> simp [deleteComment, hf, hno]
    · intro hauth
      push_neg at hauth
      constructor <;> simp [deleteComment, hf, hauth.1, hauth.2]

/-- Witness for C1: the owner updates post 1 with status 200; actor 2,
    neither owner nor admin, gets 403 and an unchanged store. -/
theorem forum_c1_witness :
    (putPost exStore exOwner 1 (some "T") (some "C") 30).status = 200 ∧
    (putPost exStore exOther 1 (some "T") (some "C") 30).status = 403 ∧
    (putPost exStore exOther 1 (some "T") (some "C") 30).store = exStore :=
  ⟨((forum_c1_ownership_gate.1 exStore exOwner 1 exPost1 (some "T") (some "C") 30
      (by decide) (by decide)).1 (by decide)).1,
   ((forum_c1_ownership_gate.1 exStore exOther 1 exPost1 (some "T") (some "C") 30
      (by decide) (by decide)).2 (by decide)).1,
   ((forum_c1_ownership_gate.1 exStore exOther 1 exPost1 (some "T") (some "C") 30
      (by decide) (by decide)).2 (by decide)).2⟩

/-- C3: an authorized DELETE of an existing post answers 200 with a
    success body; the resulting store has dropped every comment whose
    post_id is the post's id (the first statement) and the post row
    (the second statement), so no remaining comment references it. -/
theorem forum_c3_cascade_delete (s : Store) (a : Actor) (id : Nat) (row : PostRow)
    (hf : findPost s id = some row)
    (hauth : row.user_id = a.id ∨ a.role = "admin") :
    (deletePost s a id).status = 200 ∧
    (deletePost s a id).body = .success ∧
    (deletePost s a id).store.comments = s.comments.filter (fun c => !(c.post_id == id)) ∧
    (deletePost s a id).store.posts = s.posts.filter (fun p => !(p.id == id)) ∧
    (∀ c ∈ (deletePost s a id).store.comments, c.post_id ≠ id) ∧
    (∀ p ∈ (deletePost s a id).store.posts, p.id ≠ id) := by
  have hno : ¬(row.user_id ≠ a.id ∧ a.role ≠ "admin") := by
    rintro ⟨h1, h2⟩
    exact hauth.elim h1 h2
  refine ⟨?_, ?_, ?_, ?_, ?_, ?_⟩
  · simp [deletePost, hf, hno]
  · simp [deletePost, hf, hno]
  · simp [deletePost, hf, hno]
  · simp [deletePost, hf, hno]
  · intro c hc
    simp only [deletePost, hf, hno, if_false] at hc
    have := (List.mem_filter.mp hc).2
    simpa using this
  · intro p hp
    simp only [deletePost, hf, hno, if_false] at hp
    have := (List.mem_filter.mp hp).2
    simpa using this

/-- Witness for C3: the owner deletes post 1; the example store's only
    comment referenced post 1 and is gone with it. -/
theorem forum_c3_witness :
    (deletePost exStore exOwner 1).status = 200 ∧
    (deletePost exStore exOwner 1).store.comments = [] ∧
    (deletePost exStore exOwner 1).store.posts = [exPost2] := by
  have h := forum_c3_cascade_delete exStore exOwner 1 exPost1 (by decide) (by decide)
  exact ⟨h.1, by rw [h.2.2.1]; decide, by rw [h.2.2.2.1]; decide⟩

/-- C5: once a DELETE has succeeded, a second authenticated DELETE on
    the same id answers 404, never 200 — for posts and for comments. -/
theorem forum_c5_delete_idempotence (s : Store) (a a2 : Actor) (id : Nat) :
    ((deletePost s a id).status = 200 →
       (deletePost (deletePost s a id).store a2 id).status = 404)
    ∧ ((deleteComment s a id).status = 200 →
       (deleteComment (deleteComment s a id).store a2 id).status = 404) := by
  constructor
  · intro h200
    match hf : findPost s id with
    | none =>
      simp [deletePost, hf] at h200
    | some row =>
      by_cases hno : row.user_id ≠ a.id ∧ a.role ≠ "admin"
      · simp [deletePost, hf, hno] at h200
      · have hstore : (deletePost s a id).store.posts =
            s.posts.filter (fun p => !(p.id == id)) := by
          simp [deletePost, hf, hno]
        have hnone : findPost (deletePost s a id).store id = none := by
          rw [findPost, hstore, List.find?_eq_none]
          intro p hp
          simpa using (List.mem_filter.mp hp).2
        have h404 : ∀ (s0 : Store) (a0 : Actor), findPost s0 id = none →
            (deletePost s0 a0 id).status = 404 := by
          intro s0 a0 h0
          simp [deletePost, h0]
        exact h404 _ a2 hnone
  · intro h200
    match hf : findComment s id with
    | none =>
      simp [deleteComment, hf] at h200
    | some row =>
      by_cases hno : row.user_id ≠ a.id ∧ a.role ≠ "admin"
      · simp [deleteComment, hf, hno] at h200
      · have hstore : (deleteComment s a id).store.comments =
            s.comments.filter (fun x => !(x.id == id)) := by
          simp [deleteComment, hf, hno]
        have hnone : findComment (deleteComment s a id).store id = none := by
          rw [findComment, hstore, List.find?_eq_none]
          intro x hx
          simpa using (List.mem_filter.mp hx).2
        have h404 : ∀ (s0 : Store) (a0 : Actor), findComment s0 id = none →
            (deleteComment s0 a0 id).status = 404 := by
          intro s0 a0 h0
          simp [deleteComment, h0]
        exact h404 _ a2 hnone

/-- Witness for C5: deleting post 1 twice; the second call answers 404. -/
theorem forum_c5_witness :
    (deletePost exStore exOwner 1).status = 200 ∧
    (deletePost (deletePost exStore exOwner 1).store exOwner 1).status = 404 :=
  ⟨by decide, (forum_c5_delete_idempotence exStore exOwner exOwner 1).1 (by decide)⟩

/-- C8: a successful PUT on a post changes only the target rows' title,
    content and updated_at; ids, owners and creation times survive,
    other posts and all comments are untouched, and the response body
    carries the updated record. -/
theorem forum_c8_put_post_frame (s : Store) (a : Actor) (id : Nat) (row : PostRow)
    (t c : Option String) (now : Nat)
    (hv : (present t && present c) = true)
    (hf : findPost s id = some row)
    (hauth : row.user_id = a.id ∨ a.role = "admin") :
    (putPost s a id t c now).status = 200 ∧
    (putPost s a id t c now).store.comments = s.comments ∧
    (putPost s a id t c now).store.users = s.users ∧
    (putPost s a id t c now).store.posts = s.posts.map (fun p =>
      if p.id == id then { p with title := t.getD "", content := c.getD "",
                                  updated_at := some now } else p) ∧
    (∀ p ∈ s.posts, p.id ≠ id → p ∈ (putPost s a id t c now).store.posts) ∧
    (∀ q ∈ (putPost s a id t c now).store.posts, ∃ p ∈ s.posts,
       q.id = p.id ∧ q.user_id = p.user_id ∧ q.created_at = p.created_at) ∧
    (putPost s a id t c now).body =
      .postRec row.id (t.getD "") (c.getD "") row.created_at (some now) := by
  have hno : ¬(row.user_id ≠ a.id ∧ a.role ≠ "admin") := by
    rintro ⟨h1, h2⟩
    exact hauth.elim h1 h2
  have hposts : (putPost s a id t c now).store.posts = s.posts.map (fun p =>
      if p.id == id then { p with title := t.getD "", content := c.getD "",
                                  updated_at := some now } else p) := by
    simp [putPost, hv, hf, hno]
  refine ⟨?_, ?_, ?_, hposts, ?_, ?_, ?_⟩
  · simp [putPost, hv, hf, hno]
  · simp [putPost, hv, hf, hno]
  · simp [putPost, hv, hf, hno]
  · intro p hp hpid
    rw [hposts]
    have hne : (p.id == id) = false := by simpa using hpid
    have : (if p.id == id then
        { p with title := t.getD "", content := c.getD "",
                 updated_at := some now } else p) = p := by
      rw [hne]
      rfl
    exact this ▸ List.mem_map_of_mem _ hp
  · intro q hq
    rw [hposts] at hq
    obtain ⟨p, hp, hpq⟩ := List.mem_map.mp hq
    refine ⟨p, hp, ?_⟩
    by_cases hpid : (p.id == id) = true
    · rw [if_pos hpid] at hpq
      rw [← hpq]
      exact ⟨rfl, rfl, rfl⟩
    · rw [if_neg hpid] at hpq
      rw [← hpq]
      exact ⟨rfl, rfl, rfl⟩
  · simp [putPost, hv, hf, hno]

/-- Witness for C8: the owner updates post 1 in the example store. -/
theorem forum_c8_witness :
    (putPost exStore exOwner 1 (some "T") (some "C") 30).status = 200 ∧
    (putPost exStore exOwner 1 (some "T") (some "C") 30).store.comments =
      exStore.comments ∧
    (putPost exStore exOwner 1 (some "T") (some "C") 30).body =
      .postRec 1 "T" "C" 10 (some 30) :=
  have h := forum_c8_put_post_frame exStore exOwner 1 exPost1 (some "T") (some "C") 30
    (by decide) (by decide) (by decide)
  ⟨h.1, h.2.1, h.2.2.2.2.2.2⟩

/-- Inserting into a descending-ordered list permutes consing. -/
theorem insertByDesc_perm (p : PostRow) (l : List PostRow) :
    (insertByDesc p l).Perm (p :: l) := by
  induction l with
  | nil => exact List.Perm.refl _
  | cons q qs ih =>
    unfold insertByDesc
    split
    · exact List.Perm.refl _
    · exact (List.Perm.cons q ih).trans (List.Perm.swap p q qs)

/-- The ORDER BY model returns a permutation of the table rows. -/
theorem sortByCreatedDesc_perm (l : List PostRow) :
    (sortByCreatedDesc l).Perm l := by
  induction l with
  | nil => exact List.Perm.refl _
  | cons p ps ih =>
    exact (insertByDesc_perm p (sortByCreatedDesc ps)).trans (List.Perm.cons p ih)

/-- Insertion keeps the list pairwise descending in created_at. -/
theorem insertByDesc_pairwise (p : PostRow) (l : List PostRow)
    (h : l.Pairwise (fun a b => b.created_at ≤ a.created_at)) :
    (insertByDesc p l).Pairwise (fun a b => b.created_at ≤ a.created_at) := by
  induction l with
  | nil => simp [insertByDesc]
  | cons q qs ih =>
    rw [List.pairwise_cons] at h
    obtain ⟨hq, hqs⟩ := h
    unfold insertByDesc
    split
    · rename_i hle
      refine List.pairwise_cons.mpr ⟨?_, List.pairwise_cons.mpr ⟨hq, hqs⟩⟩
      intro b hb
      rcases List.mem_cons.mp hb with rfl | hb2
      · exact hle
      · exact le_trans (hq b hb2) hle
    · rename_i hgt
      refine List.pairwise_cons.mpr ⟨?_, ih hqs⟩
      intro b hb
      have hb' := (insertByDesc_perm p qs).mem_iff.mp hb
      rcases List.mem_cons.mp hb' with rfl | hb2
      · exact le_of_not_le hgt
      · exact hq b hb2

/-- The ORDER BY model yields a pairwise descending created_at list. -/
theorem sortByCreatedDesc_pairwise (l : List PostRow) :
    (sortByCreatedDesc l).Pairwise (fun a b => b.created_at ≤ a.created_at) := by
  induction l with
  | nil => simp [sortByCreatedDesc]
  | cons p ps ih => exact insertByDesc_pairwise p _ ih

/-- C6: GET /forum/posts takes no actor (no authentication wrapper),
    leaves the store unchanged, and its rows contain every post whose
    author exists (with the embedded author id and name), are ordered by
    post creation time descending, and give a post with no comments an
    empty comment sequence rather than null. -/
theorem forum_c6_list_posts (s : Store) :
    (getPostsHandler s).status = 200 ∧
    (getPostsHandler s).store = s ∧
    (getPostsHandler s).body = .postList (getPosts s) ∧
    (∀ p ∈ s.posts, ∀ u, findUser s.users p.user_id = some u →
       (⟨p.id, p.title, p.content, p.created_at, p.user_id,
         ⟨u.id, u.name⟩, commentViews s p.id⟩ : PostView) ∈ getPosts s) ∧
    (getPosts s).Pairwise (fun v w => w.created_at ≤ v.created_at) ∧
    (∀ v ∈ getPosts s, (∀ c ∈ s.comments, c.post_id ≠ v.id) → v.comments = []) := by
  refine ⟨rfl, rfl, rfl, ?_, ?_, ?_⟩
  · intro p hp u hu
    refine List.mem_filterMap.mpr ⟨p, ?_, ?_⟩
    · exact (sortByCreatedDesc_perm s.posts).mem_iff.mpr hp
    · rw [hu]
      rfl
  · refine List.Pairwise.filterMap _ ?_ (sortByCreatedDesc_pairwise s.posts)
    intro p p' hR v hv w hw
    rcases Option.map_eq_some'.mp (Option.mem_def.mp hv) with ⟨u, hu, hgv⟩
    rcases Option.map_eq_some'.mp (Option.mem_def.mp hw) with ⟨u', hu', hgw⟩
    rw [← hgv, ← hgw]
    exact hR
  · intro v hv hnone
    obtain ⟨p, hp, hfp⟩ := List.mem_filterMap.mp hv
    rcases Option.map_eq_some'.mp hfp with ⟨u, hu, hgv⟩
    subst hgv
    show commentViews s p.id = []
    have hfilter : s.comments.filter (fun c => c.post_id == p.id) = [] := by
      rw [List.filter_eq_nil_iff]
      intro c hc hbeq
      exact hnone c hc (by simpa using hbeq)
    rw [commentViews, hfilter]
    rfl

/-- Witness for C6 on the example store: post 1 appears with its author
    and both example posts come back newest first. -/
theorem forum_c6_witness :
    (⟨1, "Rain", "Heavy rain today", 10, 1, ⟨1, "An"⟩,
       commentViews exStore 1⟩ : PostView) ∈ getPosts exStore ∧
    (getPosts exStore).Pairwise (fun v w => w.created_at ≤ v.created_at) :=
  ⟨(forum_c6_list_posts exStore).2.2.2.1 exPost1 (by decide) ⟨1, "An"⟩ (by decide),
   (forum_c6_list_posts exStore).2.2.2.2.1⟩

end Forum
